import Mathlib

/-!
Verification development for the Rush-Royale-Bot repository.

The repository contains two parallel Python service stacks: one under
src/backend/app (services with Russian doc strings) and one under src/api.
This file gives a shallow embedding in Lean 4 of the code that the checked
properties are about:

- the perception pipeline of src/backend/app/services/vision_service.py
  (color quantization, nearest-reference-color unit matching, grid analysis,
  mana analysis);
- the device registries of src/api/services/device_service.py
  (refresh_devices, _parse_device_line) and of
  src/backend/app/services/device_service.py (scan_devices);
- the orchestrator lifecycle operations of
  src/backend/app/services/bot_service.py (start, stop, toggle_pause,
  _emit_event, the main-loop exception handler and _handle_error) and of
  src/api/services/bot_service.py (stop_bot, pause_bot, resume_bot).

Opaque external computations (OpenCV primitives such as grayscale mean,
normalized template correlation and BGR/HSV conversion, the ADB bridge, the
trained rank classifier) are modelled as explicit inputs of the embedded
functions; all arithmetic the Python code performs on their results is
embedded exactly, with Python floats rendered as rationals and numpy integer
arrays as integers.
-/

namespace RushRoyale

/-! ## Color pipeline: vision_service._get_color and vision_service._match_unit -/

/-- A pixel color.  The Python code converts BGR images to RGB before
quantization; the embedding works directly with the converted triple.
Channel values are integers, as in the numpy arrays of the source. -/
structure RGB where
  r : ℤ
  g : ℤ
  b : ℤ
deriving DecidableEq, Repr

def rgbZero : RGB := ⟨0, 0, 0⟩

/-- Channel-wise color quantization into buckets of width 20:
flat_img // 20 * 20 in _get_color.  The pixel values are non-negative, so
truncating integer division agrees with the numpy floor division. -/
def quantize (c : RGB) : RGB := ⟨c.r / 20 * 20, c.g / 20 * 20, c.b / 20 * 20⟩

/-- Lexicographic comparison on colors; np.unique(axis=0) returns the
distinct rows in this order. -/
def rgbLe (a c : RGB) : Bool :=
  a.r < c.r ∨ (a.r = c.r ∧ (a.g < c.g ∨ (a.g = c.g ∧ a.b ≤ c.b)))

def orderedInsertRGB (a : RGB) : List RGB → List RGB
  | [] => [a]
  | c :: cs => if rgbLe a c then a :: c :: cs else c :: orderedInsertRGB a cs

/-- Sort a list of colors lexicographically (insertion sort). -/
def sortRGB : List RGB → List RGB
  | [] => []
  | c :: cs => orderedInsertRGB c (sortRGB cs)

def orderedInsertRev (a : ℕ) : List ℕ → List ℕ
  | [] => [a]
  | c :: cs => if c ≤ a then a :: c :: cs else c :: orderedInsertRev a cs

/-- Sort counts in descending order: np.sort(counts)[::-1] in _get_color. -/
def sortDesc : List ℕ → List ℕ
  | [] => []
  | c :: cs => orderedInsertRev c (sortDesc cs)

/-- The top-five selection loop of _get_color: colors starts as a 5 x 3 zero
array; entry i is unique[ np.where(counts == sorted_count[i])[0][0] ], the
first unique color whose count equals the i-th largest count (with ties this
repeats the same representative, exactly as the numpy code does). -/
def topFive (uniq : List RGB) (counts : List ℕ) : List RGB :=
  let sortedCount := sortDesc counts
  (List.range 5).map (fun i =>
    match sortedCount[i]? with
    | none => rgbZero
    | some target =>
      match counts.findIdx? (fun c => c = target) with
      | none => rgbZero
      | some j => uniq[j]?.getD rgbZero)

/-- vision_service._get_color on the (optionally cropped, BGR-to-RGB
converted) pixel multiset of an image: quantize every pixel, and if the
quantized image has fewer than 10 distinct colors return the all-zero 5 x 3
array, otherwise the 5 most frequent quantized colors. -/
def getColor (pixels : List RGB) : List RGB :=
  if (sortRGB (pixels.map quantize).dedup).length < 10 then List.replicate 5 rgbZero
  else
    topFive (sortRGB (pixels.map quantize).dedup)
      ((sortRGB (pixels.map quantize).dedup).map (fun c => (pixels.map quantize).count c))

/-- One entry of the reference table: ref_units and ref_colors are parallel
lists built together by load_unit_references, modelled as one list of
pairs. -/
structure RefUnit where
  name : String
  color : RGB
deriving DecidableEq, Repr

/-- Squared distance between two colors: np.sum((ref - color)**2, axis=1)
for one reference row. -/
def distSq (a c : RGB) : ℤ := (a.r - c.r) ^ 2 + (a.g - c.g) ^ 2 + (a.b - c.b) ^ 2

/-- Minimum of an integer list; the numpy .min() is only applied to
non-empty arrays, the default value covers the impossible empty case. -/
def listMin : List ℤ → ℤ
  | [] => 2001
  | x :: xs => xs.foldl min x

/-- First index attaining the minimum: np.argmin. -/
def argminIdx (l : List ℤ) : ℕ := l.findIdx (fun x => x = listMin l)

def mseList (refs : List RefUnit) (c : RGB) : List ℤ :=
  refs.map (fun r => distSq r.color c)

/-- The color loop of _match_unit: try the extracted colors in order (the
most frequent first); on the first color whose minimal squared distance to
the reference table is at most 2000, return the first minimizing
reference's unit name together with that minimum. -/
def matchLoop (refs : List RefUnit) : List RGB → String × ℤ
  | [] => ("empty.png", 2001)
  | c :: cs =>
    if listMin (mseList refs c) ≤ 2000 then
      (((refs.get? (argminIdx (mseList refs c))).map RefUnit.name).getD "empty.png",
       listMin (mseList refs c))
    else matchLoop refs cs

/-- vision_service._match_unit on the central-crop pixel multiset of a cell
image: with an empty reference table the sentinel (empty.png, 2001) is
returned; otherwise the color loop above runs on the 5 most frequent
quantized colors. -/
def matchUnit (refs : List RefUnit) (pixels : List RGB) : String × ℤ :=
  if refs = [] then ("empty.png", 2001)
  else matchLoop refs (getColor pixels)

/-- The unit-matching rule as the specification words it: over all of the 5
most frequent quantized colors, the squared distance to every reference is
computed and the global minimum decides the match; if it is at most 2000
the minimizing reference wins.  Stated only to be compared against
matchUnit, which is the embedding of the code. -/
def specMatchUnit (refs : List RefUnit) (pixels : List RGB) : String × ℤ :=
  if refs = [] then ("empty.png", 2001)
  else
    let allPairs := (getColor pixels).flatMap (fun c => refs.map (fun r => (r.name, distSq r.color c)))
    let m := listMin (allPairs.map (fun nd => nd.2))
    if m ≤ 2000 then
      match allPairs.find? (fun nd => nd.2 = m) with
      | some nd => nd
      | none => ("empty.png", 2001)
    else ("empty.png", 2001)

/-! ## Cell and grid analysis: vision_service._analyze_cell and analyze_grid -/

/-- One loaded template together with the normalized cross-correlation score
cv2.matchTemplate(..., TM_CCOEFF_NORMED) produces for it against the cell
being analysed.  The resize and correlation are opaque OpenCV calls, so the
score is carried as input data; mathematically it always lies in [-1, 1]. -/
structure TemplateScore where
  name : String
  threshold : ℚ
  category : String
  score : ℚ
deriving DecidableEq, Repr

/-- The data _analyze_cell extracts from one grid-cell slice of the
screenshot.  pixels is the cell's pixel multiset (empty exactly when the
numpy slice has size 0); meanBrightness is np.mean of the grayscale
conversion; templates carries the loaded templates with their correlation
scores for this cell; rank and rankConf are the output of _match_rank for
this cell (0 and 0 when no classifier is loaded). -/
structure CellImage where
  pixels : List RGB
  meanBrightness : ℚ
  templates : List TemplateScore
  rank : ℕ
  rankConf : ℚ

/-- Python max on two floats, rendered on rationals. -/
def ratMax (a c : ℚ) : ℚ := if a ≤ c then c else a

/-- Python min on two floats, rendered on rationals. -/
def ratMin (a c : ℚ) : ℚ := if a ≤ c then a else c

structure CellResult where
  occupied : Bool
  cardType : Option String
  confidence : ℚ
deriving DecidableEq, Repr

/-- The template fallback loop of _analyze_cell: fold over the loaded
templates, keeping the best card-category score that beats both the current
best and the template's own threshold. -/
def bestTemplate (ts : List TemplateScore) : Option String × ℚ :=
  ts.foldl
    (fun acc t =>
      if t.category = "card" ∧ acc.2 < t.score ∧ t.threshold < t.score
      then (some t.name, t.score) else acc)
    (none, 0)

/-- Does the second character list start with the first one. -/
def startsWithChars : List Char → List Char → Bool
  | [], _ => true
  | _ :: _, [] => false
  | a :: as, c :: cs => a = c ∧ startsWithChars as cs

/-- Left-to-right replacement of every occurrence of a non-empty pattern,
as Python str.replace; the counter skips the tail of a matched pattern. -/
def replaceCharsAux (pat rep : List Char) : List Char → ℕ → List Char
  | [], _ => []
  | _ :: cs, k + 1 => replaceCharsAux pat rep cs k
  | c :: cs, 0 =>
    if startsWithChars pat (c :: cs)
    then rep ++ replaceCharsAux pat rep cs (pat.length - 1)
    else c :: replaceCharsAux pat rep cs 0

def pyReplace (s pat rep : String) : String :=
  String.mk (replaceCharsAux pat.toList rep.toList s.toList 0)

/-- The unit name _analyze_cell reports: strip the .png ending, and append
the rank suffix when the classifier is confident. -/
def unitDisplayName (unitType : String) (rank : ℕ) (rankConf : ℚ) : String :=
  if 0 < rank ∧ 1 / 2 < rankConf
  then (pyReplace unitType ".png" "") ++ "_rank_" ++ toString rank
  else pyReplace unitType ".png" ""

/-- vision_service._analyze_cell: empty slices are empty cells with
confidence 0; cells whose mean brightness falls outside [30, 220] are empty
with confidence 0.1; otherwise color matching is tried first (when a
reference table is loaded), reporting confidence max(0.1, 1 - d/2000) for
match distance d at most 2000; then template matching; and finally the cell
is reported occupied as unknown with confidence 0.5. -/
def analyzeCell (refs : List RefUnit) (cell : CellImage) : CellResult :=
  if cell.pixels = [] then ⟨false, none, 0⟩
  else if cell.meanBrightness < 30 ∨ 220 < cell.meanBrightness then ⟨false, none, 1 / 10⟩
  else if ¬ refs = [] ∧ (matchUnit refs cell.pixels).1 ≠ "empty.png" ∧
          (matchUnit refs cell.pixels).2 ≤ 2000 then
    ⟨true,
     some (unitDisplayName (matchUnit refs cell.pixels).1 cell.rank cell.rankConf),
     ratMax (1 / 10) (1 - ((matchUnit refs cell.pixels).2 : ℚ) / 2000)⟩
  else
    match bestTemplate cell.templates with
    | (some nm, conf) => ⟨true, some nm, conf⟩
    | (none, _) => ⟨true, some "unknown", 1 / 2⟩

/-- The grid geometry held in VisionService.grid_config. -/
structure GridConfig where
  rows : ℕ
  cols : ℕ
  cellWidth : ℕ
  cellHeight : ℕ
  gridStartX : ℕ
  gridStartY : ℕ
  cellSpacing : ℕ
deriving DecidableEq, Repr

/-- The default grid_config of VisionService. -/
def defaultGridConfig : GridConfig := ⟨4, 4, 80, 80, 100, 200, 10⟩

structure GridCell where
  x : ℕ
  y : ℕ
  width : ℕ
  height : ℕ
  occupied : Bool
  cardType : Option String
  confidence : ℚ
deriving DecidableEq, Repr

structure GridAnalysis where
  cells : List GridCell
  gridWidth : ℕ
  gridHeight : ℕ
  totalCells : ℕ
  occupiedCells : ℕ
  emptyCells : ℕ
  detectedCards : List (String × ℕ)
  confidence : ℚ
deriving DecidableEq, Repr

/-- detected_cards[card_type] = detected_cards.get(card_type, 0) + 1. -/
def bumpCard (m : List (String × ℕ)) (k : String) : List (String × ℕ) :=
  if m.any (fun kv => kv.1 = k)
  then m.map (fun kv => if kv.1 = k then (kv.1, kv.2 + 1) else kv)
  else m ++ [(k, 1)]

/-- The row-major cell loop of analyze_grid: for every (row, col) the slice
coordinates are computed from the grid geometry and the slice is analysed.
img row col is the cell slice the numpy indexing extracts at those
coordinates, together with the opaque per-cell OpenCV data. -/
def gridCells (refs : List RefUnit) (cfg : GridConfig) (img : ℕ → ℕ → CellImage) :
    List GridCell :=
  (List.range cfg.rows).flatMap (fun row =>
    (List.range cfg.cols).map (fun col =>
      let x := cfg.gridStartX + col * (cfg.cellWidth + cfg.cellSpacing)
      let y := cfg.gridStartY + row * (cfg.cellHeight + cfg.cellSpacing)
      let r := analyzeCell refs (img row col)
      ⟨x, y, cfg.cellWidth, cfg.cellHeight, r.occupied, r.cardType, r.confidence⟩))

/-- The analysis returned by the except-branch of analyze_grid when the
image cannot be decoded (or any other exception occurs). -/
def emptyGridAnalysis : GridAnalysis := ⟨[], 0, 0, 0, 0, 0, [], 0⟩

/-- vision_service.analyze_grid.  An input of none models a screenshot that
fails to decode: the try/except wrapper then returns the explicitly empty
analysis instead of raising.  On a decoded image, the cells are produced
row-major, occupancy and card counts are accumulated, and the overall
confidence is the mean cell confidence (0 for an empty cell list). -/
def analyzeGrid (refs : List RefUnit) (cfg : GridConfig)
    (img? : Option (ℕ → ℕ → CellImage)) : GridAnalysis :=
  match img? with
  | none => emptyGridAnalysis
  | some img =>
    let cells := gridCells refs cfg img
    let occupied := (cells.filter (fun c => c.occupied)).length
    let detected := cells.foldl
      (fun m c =>
        if c.occupied then
          match c.cardType with
          | some k => bumpCard m k
          | none => m
        else m) []
    let total := cells.length
    ⟨cells, cfg.cols, cfg.rows, total, occupied, total - occupied, detected,
     if cells = [] then 0 else (cells.map (fun c => c.confidence)).sum / total⟩

/-! ## Mana analysis: vision_service.analyze_mana -/

structure HSV where
  h : ℤ
  s : ℤ
  v : ℤ
deriving DecidableEq, Repr

/-- The mana_config of VisionService: crop rectangle and HSV color range. -/
structure ManaConfig where
  manaBarX : ℕ
  manaBarY : ℕ
  manaBarWidth : ℕ
  manaBarHeight : ℕ
  lower : HSV
  upper : HSV
deriving DecidableEq, Repr

def defaultManaConfig : ManaConfig := ⟨50, 50, 200, 30, ⟨100, 150, 200⟩, ⟨120, 255, 255⟩⟩

/-- cv2.inRange: a pixel is in the mask when every channel lies between the
bounds inclusively. -/
def hsvInRange (lo hi p : HSV) : Bool :=
  lo.h ≤ p.h ∧ p.h ≤ hi.h ∧ lo.s ≤ p.s ∧ p.s ≤ hi.s ∧ lo.v ≤ p.v ∧ p.v ≤ hi.v

structure ManaAnalysis where
  currentMana : ℤ
  maxMana : ℤ
  manaPercentage : ℚ
  confidence : ℚ
deriving DecidableEq, Repr

/-- vision_service.analyze_mana.  An input of none models an image that
fails to decode: the except-branch returns the zero analysis.  Otherwise the
input list is the cropped mana region converted to HSV (both opaque OpenCV
steps); the mask fraction is taken against the configured rectangle area,
mapped linearly onto the hard-coded maximum of 10 mana (int() truncates,
which on the non-negative fraction is the floor), and the confidence is the
percentage normalized against 50, capped at 1. -/
def analyzeMana (cfg : ManaConfig) (region? : Option (List HSV)) : ManaAnalysis :=
  match region? with
  | none => ⟨0, 10, 0, 0⟩
  | some region =>
    let manaPixels := (region.filter (hsvInRange cfg.lower cfg.upper)).length
    let totalPixels := cfg.manaBarWidth * cfg.manaBarHeight
    let pct : ℚ := ((manaPixels : ℚ) / (totalPixels : ℚ)) * 100
    let maxMana : ℤ := 10
    ⟨⌊pct / 100 * (maxMana : ℚ)⌋, maxMana, pct, ratMin (pct / 50) 1⟩

/-- The number of pixels cv2.countNonZero finds in the mana mask. -/
def manaMatchedCount (cfg : ManaConfig) (region : List HSV) : ℕ :=
  (region.filter (hsvInRange cfg.lower cfg.upper)).length

/-- The matched-pixel fraction of the mana region: mask count over the
configured rectangle area. -/
def manaFraction (cfg : ManaConfig) (region : List HSV) : ℚ :=
  (manaMatchedCount cfg region : ℚ) / ((cfg.manaBarWidth * cfg.manaBarHeight : ℕ) : ℚ)

/-! ## Device registry, api tree: device_service._parse_device_line and
refresh_devices -/

inductive ApiDeviceStatus where
  | disconnected
  | connecting
  | connected
  | unauthorized
  | error
deriving DecidableEq, Repr

inductive ApiConnectionType where
  | usb
  | wifi
  | emulator
deriving DecidableEq, Repr

/-- The fields of DeviceInfo that _parse_device_line itself fills in.  The
_update_device_details enrichment runs separate adb queries and only
rewrites name, model, version and hardware fields; it never touches id,
status or connection_type, so it is not embedded. -/
structure ApiDeviceInfo where
  id : String
  name : String
  model : String
  status : ApiDeviceStatus
  connectionType : ApiConnectionType
deriving DecidableEq, Repr

def isSpaceChar (c : Char) : Bool := c = ' ' ∨ c = '\t' ∨ c = '\n' ∨ c = '\r'

def splitCharsAux (p : Char → Bool) : List Char → List Char → List (List Char)
  | [], acc => [acc.reverse]
  | c :: cs, acc =>
    if p c then acc.reverse :: splitCharsAux p cs []
    else splitCharsAux p cs (c :: acc)

/-- Whitespace splitting as Python str.split() with no argument: split on
whitespace runs and drop the empty fields. -/
def pySplit (line : String) : List String :=
  ((splitCharsAux isSpaceChar line.toList []).map (fun l => String.mk l)).filter
    (fun p => p ≠ "")

def hasSubChars (sub : List Char) : List Char → Bool
  | [] => startsWithChars sub []
  | c :: cs => startsWithChars sub (c :: cs) || hasSubChars sub cs

/-- Substring membership, Python in on strings. -/
def strHasSub (s sub : String) : Bool := hasSubChars sub.toList s.toList

/-- device_service._parse_device_line: a line needs at least two
whitespace-separated fields; the second one maps through the status table
(device, offline, unauthorized, anything else is error); the connection
type is wifi for colon-and-three-dots ids, emulator for ids containing
emulator, usb otherwise. -/
def parseDeviceLine (line : String) : Option ApiDeviceInfo :=
  match pySplit line with
  | deviceId :: statusStr :: _ =>
    let status : ApiDeviceStatus :=
      match statusStr with
      | "device" => .connected
      | "offline" => .disconnected
      | "unauthorized" => .unauthorized
      | "no permissions" => .error
      | _ => .error
    let connectionType : ApiConnectionType :=
      if deviceId.toList.any (fun c => c = ':') ∧ deviceId.toList.count '.' = 3 then .wifi
      else if strHasSub deviceId "emulator" then .emulator
      else .usb
    some ⟨deviceId, deviceId, "Unknown", status, connectionType⟩
  | _ => none

/-- self.devices[device_info.id] = device_info on a Python dict: replace the
entry in place when the key exists, append otherwise. -/
def regInsert (reg : List (String × ApiDeviceInfo)) (d : ApiDeviceInfo) :
    List (String × ApiDeviceInfo) :=
  if reg.any (fun kv => kv.1 = d.id)
  then reg.map (fun kv => if kv.1 = d.id then (d.id, d) else kv)
  else reg ++ [(d.id, d)]

/-- device_service.refresh_devices, successful-scan path: parse every
enumeration output line (skipping blanks and malformed lines), store every
parsed record in the registry, then delete every registry key that is not
among the freshly enumerated ids. -/
def refreshDevices (reg : List (String × ApiDeviceInfo)) (lines : List String) :
    List (String × ApiDeviceInfo) :=
  let parsed := lines.filterMap parseDeviceLine
  let reg1 := parsed.foldl regInsert reg
  let ids := parsed.map (fun d => d.id)
  reg1.filter (fun kv => ids.contains kv.1)

/-! ## Device registry, backend tree: device_service.scan_devices -/

inductive BDeviceStatus where
  | disconnected
  | connected
  | unauthorized
  | offline
  | unknown
deriving DecidableEq, Repr

/-- The DeviceInfo fields scan_devices manipulates on stale entries. -/
structure BDeviceInfo where
  deviceId : String
  status : BDeviceStatus
  isConnected : Bool
deriving DecidableEq, Repr

/-- A backend Device wraps its info and the live adb handle (hasAdb is
adb_device is not None). -/
structure BDevice where
  info : BDeviceInfo
  hasAdb : Bool
deriving DecidableEq, Repr

/-- The enumeration loop body of scan_devices: an already known id gets its
info and adb handle overwritten, a new id is appended. -/
def bScanUpdate (reg : List (String × BDevice)) (e : BDeviceInfo) :
    List (String × BDevice) :=
  if reg.any (fun kv => kv.1 = e.deviceId)
  then reg.map (fun kv => if kv.1 = e.deviceId then (kv.1, ⟨e, true⟩) else kv)
  else reg ++ [(e.deviceId, ⟨e, true⟩)]

/-- backend device_service.scan_devices, successful-scan path: every
enumerated device is inserted or updated, and every registry entry whose id
was not enumerated is kept but marked disconnected with its adb handle
cleared.  The input list carries the per-device info _get_device_info
returns (its adb property queries are opaque). -/
def scanDevices (reg : List (String × BDevice)) (enum : List BDeviceInfo) :
    List (String × BDevice) :=
  let reg1 := enum.foldl bScanUpdate reg
  let ids := enum.map (fun e => e.deviceId)
  reg1.map (fun kv =>
    if ids.contains kv.1 then kv
    else (kv.1, ⟨{ kv.2.info with isConnected := false, status := .disconnected }, false⟩))

/-! ## Bot orchestrator, backend tree: bot_service.BotService -/

/-- The lifecycle enum; the backend BotStatus and the api BotState define
exactly the same six values. -/
inductive BotStatus where
  | stopped
  | starting
  | running
  | paused
  | stopping
  | error
deriving DecidableEq, Repr

/-- bot_service._emit_event, state effect on self.logs: append the event,
then keep only the last 1000 entries.  Events are identified by their type
tag; timestamps and payloads carry no logic. -/
def emitEvent (logs : List String) (e : String) : List String :=
  let l := logs ++ [e]
  if 1000 < l.length then l.drop (l.length - 1000) else l

/-- The structured result dictionary the control operations return. -/
structure OpResult where
  success : Bool
  message : String
deriving DecidableEq, Repr

/-- The BotService fields the lifecycle operations read and write, plus the
config fields governing error handling. -/
structure BackendState where
  status : BotStatus
  running : Bool
  paused : Bool
  errorCount : ℕ
  totalErrors : ℕ
  restartOnError : Bool
  maxErrors : ℕ
  logs : List String
deriving DecidableEq, Repr

/-- bot_service.stop: on a stopped bot, return the failure dictionary and
change nothing; otherwise clear the run and pause flags, cancel the loop,
finish in stopped and emit bot_stopped. -/
def backendStop (s : BackendState) : BackendState × OpResult :=
  if s.status = .stopped then (s, ⟨false, "Бот уже остановлен"⟩)
  else
    ({ s with
        status := .stopped, running := false, paused := false,
        logs := emitEvent s.logs "bot_stopped" },
     ⟨true, "Бот успешно остановлен"⟩)

/-- bot_service.start: reject when already running or starting; the
deviceOk and appOk flags stand for the opaque adb connection and app-launch
attempts, whose failure returns the failure dictionary while the status was
already moved to starting.  Success resets the error counter, raises the
run flag and emits bot_started. -/
def backendStart (s : BackendState) (deviceOk appOk : Bool) : BackendState × OpResult :=
  if s.status = .running ∨ s.status = .starting then
    (s, ⟨false, "Бот уже запущен или запускается"⟩)
  else
    let s1 := { s with status := .starting }
    if !deviceOk then (s1, ⟨false, "Не удалось подключиться к устройству"⟩)
    else if !appOk then (s1, ⟨false, "Не удалось запустить приложение"⟩)
    else
      ({ s1 with
          errorCount := 0, running := true, paused := false, status := .running,
          logs := emitEvent s1.logs "bot_started" },
       ⟨true, "Бот успешно запущен"⟩)

/-- bot_service.toggle_pause: rejected when the status is not running and
the pause flag is clear; otherwise the pause flag is flipped and the status
follows it, emitting bot_paused or bot_resumed. -/
def backendTogglePause (s : BackendState) : BackendState × OpResult :=
  if s.status ≠ .running ∧ s.paused = false then (s, ⟨false, "Бот не запущен"⟩)
  else
    let p := !s.paused
    ({ s with
        paused := p, status := if p then .paused else .running,
        logs := emitEvent s.logs (if p then "bot_paused" else "bot_resumed") },
     ⟨true, if p then "Бот приостановлен" else "Бот возобновлен"⟩)

/-- The except-branch of the iteration body of bot_service._main_loop: the
exception is logged to the logger service, an error_occurred event is
emitted, and the loop sleeps.  Nothing else changes: in particular the
error counter is not incremented and _handle_error is not called. -/
def loopOnException (s : BackendState) : BackendState :=
  { s with logs := emitEvent s.logs "error_occurred" }

/-- bot_service._handle_error (defined in the source but never invoked):
increment the error counters, and once restart_on_error holds and the
counter reaches the literal threshold 3, run one stop followed by one
start. -/
def handleError (s : BackendState) (deviceOk appOk : Bool) : BackendState :=
  let s1 := { s with errorCount := s.errorCount + 1, totalErrors := s.totalErrors + 1 }
  if s1.restartOnError = true ∧ 3 ≤ s1.errorCount then
    (backendStart (backendStop s1).1 deviceOk appOk).1
  else s1

/-- A running backend bot with restart_on_error set and max_errors 3, the
configuration of the restart scenario. -/
def runningBackend : BackendState :=
  ⟨.running, true, false, 0, 0, true, 3, []⟩

/-! ## Bot orchestrator, api tree: bot_service.BotService -/

/-- The api BotService fields its lifecycle operations touch. -/
structure ApiBotState where
  state : BotStatus
  pauseEventSet : Bool
  stopEventSet : Bool
  lastAction : Option String
deriving DecidableEq, Repr

/-- api bot_service.stop_bot: on a stopped bot it returns the current
status snapshot unchanged; otherwise it signals the stop event, waits out
the task and finishes stopped.  Both paths return normally. -/
def apiStopBot (s : ApiBotState) : Except String ApiBotState :=
  if s.state = .stopped then .ok s
  else .ok { s with
              state := .stopped, stopEventSet := true,
              lastAction := some "Bot stopped" }

/-- api bot_service.pause_bot: raises ValueError("Bot is not running")
whenever the state is not running; otherwise clears the pause event and
moves to paused. -/
def apiPauseBot (s : ApiBotState) : Except String ApiBotState :=
  if s.state ≠ .running then .error "Bot is not running"
  else .ok { s with
              state := .paused, pauseEventSet := false,
              lastAction := some "Bot paused" }

/-- api bot_service.resume_bot: raises ValueError("Bot is not paused")
whenever the state is not paused; otherwise sets the pause event and moves
to running. -/
def apiResumeBot (s : ApiBotState) : Except String ApiBotState :=
  if s.state ≠ .paused then .error "Bot is not paused"
  else .ok { s with
              state := .running, pauseEventSet := true,
              lastAction := some "Bot resumed" }

/-! ## Concrete inputs used by counterexamples and witnesses -/

/-- A pixel multiset with exactly 10 distinct quantized colors whose most
frequent color is black (12 pixels) and second most frequent is
(200, 200, 200) (11 pixels). -/
def cexPixels : List RGB :=
  List.replicate 12 ⟨0, 0, 0⟩ ++ List.replicate 11 ⟨200, 200, 200⟩ ++
  [⟨20, 0, 0⟩, ⟨60, 0, 0⟩, ⟨80, 0, 0⟩, ⟨100, 0, 0⟩,
   ⟨120, 0, 0⟩, ⟨140, 0, 0⟩, ⟨160, 0, 0⟩, ⟨180, 0, 0⟩]

/-- A reference table where the first unit sits at squared distance 1600
from black and the second coincides with (200, 200, 200). -/
def cexRefs : List RefUnit := [⟨"u0.png", ⟨40, 0, 0⟩⟩, ⟨"u1.png", ⟨200, 200, 200⟩⟩]

/-- A cell slice carrying cexPixels, in the brightness band, with no
templates and no rank prediction. -/
def cexCell : CellImage := ⟨cexPixels, 100, [], 0, 0⟩

/-- A 5 x 1 mana rectangle configuration with the default HSV range. -/
def wManaCfg : ManaConfig := ⟨0, 0, 5, 1, ⟨100, 150, 200⟩, ⟨120, 255, 255⟩⟩

/-- A mana region with 2 of 5 pixels inside the configured color range. -/
def wManaRegion : List HSV := List.replicate 2 ⟨110, 200, 220⟩ ++ List.replicate 3 ⟨0, 0, 0⟩

/-- A stopped backend bot with the default configuration. -/
def stoppedBackend : BackendState := ⟨.stopped, false, false, 0, 0, true, 5, []⟩

/-- A stopped api bot. -/
def stoppedApi : ApiBotState := ⟨.stopped, false, false, none⟩

/-! ## Claim theorems -/

/-- C6: parsing the enumeration line emulator-5554 device yields a record
with status connected (raw token device) and connection kind emulator (the
id contains emulator and is not a network address). -/
theorem c6_emulator_line_parses :
    parseDeviceLine "emulator-5554 device"
      = some ⟨"emulator-5554", "emulator-5554", "Unknown",
              ApiDeviceStatus.connected, ApiConnectionType.emulator⟩ := rfl

/-- C7: for an undecodable input image, grid analysis returns the
explicitly empty analysis (no cells, confidence 0) and mana analysis
returns zero mana, zero percentage and zero confidence; both return
normally instead of raising. -/
theorem c7_decode_failure_empty_results (refs : List RefUnit) (gcfg : GridConfig)
    (mcfg : ManaConfig) :
    analyzeGrid refs gcfg none = emptyGridAnalysis ∧
    (analyzeGrid refs gcfg none).cells = [] ∧
    (analyzeGrid refs gcfg none).confidence = 0 ∧
    analyzeMana mcfg none = ⟨0, 10, 0, 0⟩ :=
  ⟨rfl, rfl, rfl, rfl⟩

/-- C9: after every event emission the in-memory event log holds at most
1000 entries, the emitted event is retained, and the retained log is a
suffix of the previous log with the new event appended, so exactly the most
recent entries survive. -/
theorem c9_event_log_bounded (logs : List String) (e : String) :
    (emitEvent logs e).length ≤ 1000 ∧ e ∈ emitEvent logs e ∧
    (emitEvent logs e).IsSuffix (logs ++ [e]) := by
  unfold emitEvent
  by_cases h : 1000 < (logs ++ [e]).length
  · rw [if_pos h]
    have hlen : (logs ++ [e]).length = logs.length + 1 := by simp
    have hk : (logs ++ [e]).length - 1000 ≤ logs.length := by omega
    refine ⟨?_, ?_, ?_⟩
    · rw [List.length_drop]; omega
    · rw [List.drop_append_eq_append_drop]
      have : (logs ++ [e]).length - 1000 - logs.length = 0 := by omega
      rw [this]
      simp
    · exact ⟨(logs ++ [e]).take ((logs ++ [e]).length - 1000),
             List.take_append_drop _ _⟩
  · rw [if_neg h]
    exact ⟨by omega, by simp, ⟨[], rfl⟩⟩

/-- C3: the claim describes the behavior of _handle_error (three
consecutive errors with restart_on_error increment the counter to 3 and run
exactly one stop-then-start cycle), but the main loop's exception handler
never calls it: three consecutive loop exceptions leave the error counter
at 0 and emit no bot_stopped or bot_started event, so no restart ever
happens, while chaining _handle_error three times would indeed produce
exactly one stop-then-start cycle. -/
theorem c3_loop_errors_trigger_no_restart :
    ((loopOnException (loopOnException (loopOnException runningBackend))).errorCount = 0 ∧
     (loopOnException (loopOnException (loopOnException runningBackend))).status
       = BotStatus.running ∧
     (loopOnException (loopOnException (loopOnException runningBackend))).logs.count
       "bot_stopped" = 0 ∧
     (loopOnException (loopOnException (loopOnException runningBackend))).logs.count
       "bot_started" = 0) ∧
    ((handleError (handleError (handleError runningBackend true true) true true)
        true true).logs.count "bot_stopped" = 1 ∧
     (handleError (handleError (handleError runningBackend true true) true true)
        true true).logs.count "bot_started" = 1 ∧
     (handleError (handleError (handleError runningBackend true true) true true)
        true true).errorCount = 0) := by
  decide

/-- C2 (counterexample): pausing a stopped api bot raises
ValueError("Bot is not running") instead of returning a structured failure
result. -/
theorem c2_api_pause_raises :
    apiPauseBot ⟨BotStatus.stopped, false, false, none⟩
      = Except.error "Bot is not running" := rfl

/-- C2 (amended): in the backend service, stop on a stopped bot and
toggle_pause outside running-with-pause-flag-clear leave the state
unchanged and return a success-false dictionary without raising; in the api
service, stop_bot on a stopped bot is a no-op returning the status snapshot
(not a failure), while pause_bot outside running and resume_bot outside
paused leave the state unchanged but raise ValueError. -/
theorem c2_incompatible_state_ops (s : BackendState) (t : ApiBotState) :
    (s.status = .stopped → backendStop s = (s, ⟨false, "Бот уже остановлен"⟩)) ∧
    (s.status ≠ .running → s.paused = false →
      backendTogglePause s = (s, ⟨false, "Бот не запущен"⟩)) ∧
    (t.state = .stopped → apiStopBot t = .ok t) ∧
    (t.state ≠ .running → apiPauseBot t = .error "Bot is not running") ∧
    (t.state ≠ .paused → apiResumeBot t = .error "Bot is not paused") := by
  refine ⟨?_, ?_, ?_, ?_, ?_⟩
  · intro h; simp [backendStop, h]
  · intro h1 h2; simp [backendTogglePause, h1, h2]
  · intro h; simp [apiStopBot, h]
  · intro h; simp [apiPauseBot, h]
  · intro h; simp [apiResumeBot, h]

/-- C2 (witness): the five incompatible-state results at concrete stopped
bots. -/
theorem c2_incompatible_state_ops_witness :
    backendStop stoppedBackend = (stoppedBackend, ⟨false, "Бот уже остановлен"⟩) ∧
    backendTogglePause stoppedBackend = (stoppedBackend, ⟨false, "Бот не запущен"⟩) ∧
    apiStopBot stoppedApi = .ok stoppedApi ∧
    apiPauseBot stoppedApi = .error "Bot is not running" ∧
    apiResumeBot stoppedApi = .error "Bot is not paused" := by
  have h := c2_incompatible_state_ops stoppedBackend stoppedApi
  exact ⟨h.1 rfl, h.2.1 (by decide) rfl, h.2.2.1 rfl,
         h.2.2.2.1 (by decide), h.2.2.2.2 (by decide)⟩

/-- C1 (counterexample): on an image that fails to decode, grid analysis
returns 0 cells, not rows x cols = 16 for the default 4 x 4
configuration. -/
theorem c1_decode_failure_returns_no_cells :
    (analyzeGrid [] defaultGridConfig none).cells.length = 0 ∧
    defaultGridConfig.rows * defaultGridConfig.cols = 16 := by
  decide

/-- C5 (counterexample): the backend scan_devices keeps a no-longer
enumerated device in the registry (marked disconnected with its adb handle
cleared) instead of removing it: with registry containing d1 and an empty
enumeration, d1 is still a key although the enumerated id set is empty. -/
theorem c5_backend_scan_retains_stale :
    scanDevices [("d1", ⟨⟨"d1", .connected, true⟩, true⟩)] []
      = [("d1", ⟨⟨"d1", .disconnected, false⟩, false⟩)] ∧
    (scanDevices [("d1", ⟨⟨"d1", .connected, true⟩, true⟩)] []).map (fun kv => kv.1)
      ≠ ([] : List BDeviceInfo).map (fun e => e.deviceId) := by
  decide

/-- Helper: in the color branch of _analyze_cell (non-empty slice,
brightness in band, reference table loaded, match below threshold) the cell
is occupied with the matched name and the inverted-distance confidence. -/
theorem analyzeCell_color_branch (refs : List RefUnit) (cell : CellImage)
    (hne : ¬ refs = []) (hp : ¬ cell.pixels = [])
    (hb : ¬ (cell.meanBrightness < 30 ∨ 220 < cell.meanBrightness))
    (hm1 : (matchUnit refs cell.pixels).1 ≠ "empty.png")
    (hm2 : (matchUnit refs cell.pixels).2 ≤ 2000) :
    analyzeCell refs cell
      = ⟨true, some (unitDisplayName (matchUnit refs cell.pixels).1 cell.rank cell.rankConf),
          ratMax (1 / 10) (1 - ((matchUnit refs cell.pixels).2 : ℚ) / 2000)⟩ := by
  unfold analyzeCell
  rw [if_neg hp, if_neg hb, if_pos ⟨hne, hm1, hm2⟩]

/-- C4 (counterexample): the code matcher is not decided by the global
minimum distance.  On cexPixels against cexRefs, the most frequent color
(black) already matches the first reference at distance 1600, so the code
returns (u0.png, 1600) with confidence 1/5, while the global minimum over
all 5 colors and all references is 0 at the second reference, so the
claimed rule returns (u1.png, 0), which would give confidence 1. -/
theorem c4_first_color_beats_global_min :
    matchUnit cexRefs cexPixels = ("u0.png", 1600) ∧
    specMatchUnit cexRefs cexPixels = ("u1.png", 0) ∧
    analyzeCell cexRefs cexCell = ⟨true, some "u0", 1 / 5⟩ := by
  refine ⟨by decide, by decide, ?_⟩
  have h := analyzeCell_color_branch cexRefs cexCell (by decide) (by decide)
    (by norm_num [cexCell]) (by decide) (by decide)
  rw [h]
  have hm : matchUnit cexRefs cexCell.pixels = ("u0.png", 1600) := by decide
  rw [hm]
  norm_num [unitDisplayName, ratMax, cexCell]
  decide

/-- C4 (amended): the match is decided by iterating the 5 most frequent
quantized colors in descending frequency order and accepting the first one
whose minimal squared distance over the reference table is at most 2000;
when that happens the cell is occupied with the minimizing reference's
label and confidence max(0.1, 1 - distance/2000), where distance is the
accepted color's minimum, not the global minimum over all 5 colors. -/
theorem c4_color_match_confidence (refs : List RefUnit) (cell : CellImage)
    (hne : ¬ refs = []) (hp : ¬ cell.pixels = [])
    (hb : ¬ (cell.meanBrightness < 30 ∨ 220 < cell.meanBrightness))
    (hm1 : (matchUnit refs cell.pixels).1 ≠ "empty.png")
    (hm2 : (matchUnit refs cell.pixels).2 ≤ 2000) :
    matchUnit refs cell.pixels = matchLoop refs (getColor cell.pixels) ∧
    (analyzeCell refs cell).occupied = true ∧
    (analyzeCell refs cell).confidence
      = ratMax (1 / 10) (1 - ((matchUnit refs cell.pixels).2 : ℚ) / 2000) := by
  have h := analyzeCell_color_branch refs cell hne hp hb hm1 hm2
  refine ⟨?_, by rw [h], by rw [h]⟩
  unfold matchUnit
  rw [if_neg hne]

/-- C4 (witness): a uniform black cell against a single black reference
matches at distance 0 and is analysed as occupied. -/
theorem c4_color_match_confidence_witness :
    matchUnit [⟨"u.png", rgbZero⟩] (CellImage.pixels ⟨[rgbZero], 100, [], 0, 0⟩)
      = matchLoop [⟨"u.png", rgbZero⟩]
          (getColor (CellImage.pixels ⟨[rgbZero], 100, [], 0, 0⟩)) ∧
    (analyzeCell [⟨"u.png", rgbZero⟩] ⟨[rgbZero], 100, [], 0, 0⟩).occupied = true ∧
    (analyzeCell [⟨"u.png", rgbZero⟩] ⟨[rgbZero], 100, [], 0, 0⟩).confidence
      = ratMax (1 / 10)
          (1 - ((matchUnit [⟨"u.png", rgbZero⟩]
                  (CellImage.pixels ⟨[rgbZero], 100, [], 0, 0⟩)).2 : ℚ) / 2000) :=
  c4_color_match_confidence [⟨"u.png", rgbZero⟩] ⟨[rgbZero], 100, [], 0, 0⟩
    (by decide) (by decide) (by norm_num) (by decide) (by decide)

/-- C8: the mana reading maps the matched-pixel fraction linearly onto the
hard-coded maximum of 10 with integer truncation, the reported percentage
is the fraction times 100, the confidence is the percentage normalized
against the 50 percent reference and capped at 1, and in particular a
region whose matched fraction is exactly 40 percent yields current mana
4. -/
theorem c8_mana_linear_mapping (cfg : ManaConfig) (region : List HSV) :
    (analyzeMana cfg (some region)).currentMana = ⌊manaFraction cfg region * 10⌋ ∧
    (analyzeMana cfg (some region)).manaPercentage = manaFraction cfg region * 100 ∧
    (analyzeMana cfg (some region)).confidence
      = ratMin ((analyzeMana cfg (some region)).manaPercentage / 50) 1 ∧
    (manaFraction cfg region = 2 / 5 → (analyzeMana cfg (some region)).currentMana = 4) := by
  have h1 : (analyzeMana cfg (some region)).currentMana = ⌊manaFraction cfg region * 10⌋ := by
    simp only [analyzeMana, manaFraction, manaMatchedCount]
    congr 1
    push_cast
    ring
  refine ⟨h1, rfl, rfl, ?_⟩
  intro h
  rw [h1, h]
  norm_num

/-- C8 (witness): a 5-pixel mana rectangle with 2 matched pixels is a 40
percent fill and reads as 4 mana out of 10. -/
theorem c8_mana_linear_mapping_witness :
    (analyzeMana wManaCfg (some wManaRegion)).currentMana = 4 := by
  have hc : manaMatchedCount wManaCfg wManaRegion = 2 := by decide
  have hfrac : manaFraction wManaCfg wManaRegion = 2 / 5 := by
    unfold manaFraction
    rw [hc]
    norm_num [wManaCfg]
  exact (c8_mana_linear_mapping wManaCfg wManaRegion).2.2.2 hfrac

/-! ## Helper lemmas for the grid cell-count and confidence bounds -/

theorem distSq_nonneg (a c : RGB) : 0 ≤ distSq a c := by
  unfold distSq
  positivity

theorem foldl_min_mem (xs : List ℤ) (x : ℤ) : xs.foldl min x ∈ x :: xs := by
  induction xs generalizing x with
  | nil => simp
  | cons y ys ih =>
    simp only [List.foldl_cons]
    rcases List.mem_cons.mp (ih (min x y)) with h1 | h1
    · rcases min_choice x y with hm | hm
      · rw [h1, hm]; exact List.mem_cons_self _ _
      · rw [h1, hm]; exact List.mem_cons_of_mem _ (List.mem_cons_self _ _)
    · exact List.mem_cons_of_mem _ (List.mem_cons_of_mem _ h1)

theorem listMin_nonneg (l : List ℤ) (h : ∀ y ∈ l, 0 ≤ y) : 0 ≤ listMin l := by
  cases l with
  | nil => norm_num [listMin]
  | cons x xs => exact h _ (foldl_min_mem xs x)

theorem mseList_nonneg (refs : List RefUnit) (c : RGB) : ∀ y ∈ mseList refs c, 0 ≤ y := by
  intro y hy
  obtain ⟨r, _, rfl⟩ := List.mem_map.mp hy
  exact distSq_nonneg _ _

theorem matchLoop_snd_nonneg (refs : List RefUnit) (colors : List RGB) :
    0 ≤ (matchLoop refs colors).2 := by
  induction colors with
  | nil => norm_num [matchLoop]
  | cons c cs ih =>
    unfold matchLoop
    split
    · exact listMin_nonneg _ (mseList_nonneg refs c)
    · exact ih

theorem matchUnit_snd_nonneg (refs : List RefUnit) (pixels : List RGB) :
    0 ≤ (matchUnit refs pixels).2 := by
  unfold matchUnit
  split
  · norm_num
  · exact matchLoop_snd_nonneg _ _

theorem bestTemplate_foldl_bounds (ts : List TemplateScore)
    (acc : Option String × ℚ) (h : ∀ t ∈ ts, t.score ≤ 1)
    (h0 : 0 ≤ acc.2) (h1 : acc.2 ≤ 1) :
    0 ≤ (ts.foldl
      (fun acc t =>
        if t.category = "card" ∧ acc.2 < t.score ∧ t.threshold < t.score
        then (some t.name, t.score) else acc) acc).2 ∧
    (ts.foldl
      (fun acc t =>
        if t.category = "card" ∧ acc.2 < t.score ∧ t.threshold < t.score
        then (some t.name, t.score) else acc) acc).2 ≤ 1 := by
  induction ts generalizing acc with
  | nil => exact ⟨h0, h1⟩
  | cons t ts ih =>
    simp only [List.foldl_cons]
    by_cases hc : t.category = "card" ∧ acc.2 < t.score ∧ t.threshold < t.score
    · rw [if_pos hc]
      exact ih _ (fun u hu => h u (List.mem_cons_of_mem _ hu))
        (le_of_lt (lt_of_le_of_lt h0 hc.2.1)) (h t (List.mem_cons_self _ _))
    · rw [if_neg hc]
      exact ih _ (fun u hu => h u (List.mem_cons_of_mem _ hu)) h0 h1

theorem bestTemplate_bounds (ts : List TemplateScore) (h : ∀ t ∈ ts, t.score ≤ 1) :
    0 ≤ (bestTemplate ts).2 ∧ (bestTemplate ts).2 ≤ 1 :=
  bestTemplate_foldl_bounds ts (none, 0) h (le_refl 0) (by norm_num)

theorem ratMax_conf_bounds (d : ℤ) (hd : 0 ≤ d) :
    0 ≤ ratMax (1 / 10) (1 - (d : ℚ) / 2000) ∧
    ratMax (1 / 10) (1 - (d : ℚ) / 2000) ≤ 1 := by
  unfold ratMax
  have hx : (1 : ℚ) - (d : ℚ) / 2000 ≤ 1 := by
    have hq : (0 : ℚ) ≤ (d : ℚ) / 2000 := by positivity
    linarith
  split
  · constructor
    · linarith
    · exact hx
  · norm_num

/-- Every branch of _analyze_cell reports a confidence in [0, 1], provided
the template correlation scores are at most 1 (which holds mathematically
for normalized cross-correlation). -/
theorem analyzeCell_conf_bounds (refs : List RefUnit) (cell : CellImage)
    (h : ∀ t ∈ cell.templates, t.score ≤ 1) :
    0 ≤ (analyzeCell refs cell).confidence ∧ (analyzeCell refs cell).confidence ≤ 1 := by
  unfold analyzeCell
  split
  · norm_num
  · split
    · norm_num
    · split
      · exact ratMax_conf_bounds _ (matchUnit_snd_nonneg refs cell.pixels)
      · rcases hbt : bestTemplate cell.templates with ⟨name?, conf⟩
        cases name? with
        | some nm =>
          have hb := bestTemplate_bounds cell.templates h
          rw [hbt] at hb
          simpa using hb
        | none => norm_num

theorem gridCells_length (refs : List RefUnit) (cfg : GridConfig) (img : ℕ → ℕ → CellImage) :
    (gridCells refs cfg img).length = cfg.rows * cfg.cols := by
  unfold gridCells
  rw [List.length_flatMap]
  simp only [Function.comp, List.length_map, List.length_range]
  induction cfg.rows with
  | zero => simp
  | succ m ih => rw [List.range_succ]; simp [ih, Nat.succ_mul]

theorem mem_gridCells (refs : List RefUnit) (cfg : GridConfig) (img : ℕ → ℕ → CellImage)
    (c : GridCell) (hc : c ∈ gridCells refs cfg img) :
    ∃ row col, c.confidence = (analyzeCell refs (img row col)).confidence := by
  unfold gridCells at hc
  obtain ⟨row, _, hrow⟩ := List.mem_flatMap.mp hc
  obtain ⟨col, _, rfl⟩ := List.mem_map.mp hrow
  exact ⟨row, col, rfl⟩

/-- C1 (amended): on every successfully decoded image, grid analysis
returns exactly rows x cols cells and every cell confidence lies in [0, 1]
(under the mathematical bound that template correlation scores are at most
1); on a decode failure the count invariant does not hold, as the
counterexample shows. -/
theorem c1_grid_cell_count_and_confidence (refs : List RefUnit) (cfg : GridConfig)
    (img : ℕ → ℕ → CellImage)
    (h : ∀ row col, ∀ t ∈ (img row col).templates, t.score ≤ 1) :
    (analyzeGrid refs cfg (some img)).cells.length = cfg.rows * cfg.cols ∧
    ∀ c ∈ (analyzeGrid refs cfg (some img)).cells, 0 ≤ c.confidence ∧ c.confidence ≤ 1 := by
  have hcells : (analyzeGrid refs cfg (some img)).cells = gridCells refs cfg img := rfl
  rw [hcells]
  refine ⟨gridCells_length refs cfg img, ?_⟩
  intro c hc
  obtain ⟨row, col, hconf⟩ := mem_gridCells refs cfg img c hc
  rw [hconf]
  exact analyzeCell_conf_bounds refs (img row col) (h row col)

/-- C1 (witness): a 1 x 1 grid over an image of empty slices yields exactly
one cell whose confidence lies in [0, 1]. -/
theorem c1_grid_cell_count_and_confidence_witness :
    (analyzeGrid [] ⟨1, 1, 8, 8, 0, 0, 0⟩
      (some (fun _ _ => ⟨[], 0, [], 0, 0⟩))).cells.length = 1 * 1 ∧
    ∀ c ∈ (analyzeGrid [] ⟨1, 1, 8, 8, 0, 0, 0⟩
      (some (fun _ _ => ⟨[], 0, [], 0, 0⟩))).cells,
      0 ≤ c.confidence ∧ c.confidence ≤ 1 :=
  c1_grid_cell_count_and_confidence [] ⟨1, 1, 8, 8, 0, 0, 0⟩
    (fun _ _ => ⟨[], 0, [], 0, 0⟩)
    (fun _ _ t ht => absurd ht (List.not_mem_nil t))

theorem orderedInsertRGB_length (a : RGB) (l : List RGB) :
    (orderedInsertRGB a l).length = l.length + 1 := by
  induction l with
  | nil => rfl
  | cons c cs ih =>
    unfold orderedInsertRGB
    split
    · rfl
    · simp [ih]

theorem sortRGB_length (l : List RGB) : (sortRGB l).length = l.length := by
  induction l with
  | nil => rfl
  | cons c cs ih =>
    unfold sortRGB
    rw [orderedInsertRGB_length, ih]
    simp

theorem getColor_length (pixels : List RGB) : (getColor pixels).length = 5 := by
  unfold getColor
  split
  · simp
  · unfold topFive
    simp

theorem getColor_zeros (pixels : List RGB)
    (h : (pixels.map quantize).dedup.length < 10) :
    getColor pixels = List.replicate 5 rgbZero := by
  unfold getColor
  rw [if_pos]
  rw [sortRGB_length]
  exact h

theorem foldl_min_le_all (xs : List ℤ) (x : ℤ) :
    xs.foldl min x ≤ x ∧ ∀ y ∈ xs, xs.foldl min x ≤ y := by
  induction xs generalizing x with
  | nil => exact ⟨le_refl x, by simp⟩
  | cons z zs ih =>
    simp only [List.foldl_cons]
    obtain ⟨h1, h2⟩ := ih (min x z)
    refine ⟨le_trans h1 (min_le_left _ _), ?_⟩
    intro y hy
    rcases List.mem_cons.mp hy with rfl | hy2
    · exact le_trans h1 (min_le_right _ _)
    · exact h2 y hy2

theorem listMin_le (l : List ℤ) (y : ℤ) (hy : y ∈ l) : listMin l ≤ y := by
  cases l with
  | nil => simp at hy
  | cons x xs =>
    rcases List.mem_cons.mp hy with rfl | hy2
    · exact (foldl_min_le_all xs y).1
    · exact (foldl_min_le_all xs x).2 y hy2

theorem far_listMin (refs : List RefUnit) (z : RGB)
    (h : ∀ r ∈ refs, 2000 < distSq r.color z) :
    2000 < listMin (mseList refs z) := by
  cases refs with
  | nil => norm_num [mseList, listMin]
  | cons r rs =>
    have hmem := foldl_min_mem ((rs.map (fun r => distSq r.color z))) (distSq r.color z)
    have hmm : listMin (mseList (r :: rs) z) ∈ mseList (r :: rs) z := by
      simpa [mseList, listMin] using hmem
    obtain ⟨r0, hr0, heq⟩ := List.mem_map.mp hmm
    rw [← heq]
    exact h r0 hr0

theorem matchLoop_replicate_far (refs : List RefUnit) (z : RGB) (n : ℕ)
    (hfar : 2000 < listMin (mseList refs z)) :
    matchLoop refs (List.replicate n z) = ("empty.png", 2001) := by
  induction n with
  | zero => rfl
  | succ m ih =>
    rw [List.replicate_succ]
    unfold matchLoop
    rw [if_neg (not_le.mpr hfar)]
    exact ih

/-- C10: the dominant-color extraction always returns exactly 5 entries;
whenever the quantized image has fewer than 10 distinct colors all five are
(0,0,0), and then the color matcher returns the empty sentinel (falling
through to the template/unknown path) exactly when no reference color lies
within squared distance 2000 of black. -/
theorem c10_color_signature (pixels : List RGB) (refs : List RefUnit) :
    (getColor pixels).length = 5 ∧
    ((pixels.map quantize).dedup.length < 10 →
      getColor pixels = List.replicate 5 rgbZero ∧
      (matchUnit refs pixels = ("empty.png", 2001) ↔
        ∀ r ∈ refs, 2000 < distSq r.color rgbZero)) := by
  refine ⟨getColor_length pixels, ?_⟩
  intro h
  have hz := getColor_zeros pixels h
  refine ⟨hz, ?_⟩
  unfold matchUnit
  by_cases hne : refs = []
  · rw [if_pos hne]
    subst hne
    simp
  · rw [if_neg hne, hz]
    constructor
    · intro hml
      by_contra hcon
      push_neg at hcon
      obtain ⟨r, hr, hle⟩ := hcon
      have hmemmse : distSq r.color rgbZero ∈ mseList refs rgbZero :=
        List.mem_map.mpr ⟨r, hr, rfl⟩
      have hlm : listMin (mseList refs rgbZero) ≤ 2000 :=
        le_trans (listMin_le _ _ hmemmse) hle
      have h5 : List.replicate 5 rgbZero = rgbZero :: List.replicate 4 rgbZero := rfl
      rw [h5] at hml
      unfold matchLoop at hml
      rw [if_pos hlm] at hml
      have hsnd := congrArg Prod.snd hml
      simp at hsnd
      omega
    · intro hfar
      exact matchLoop_replicate_far refs rgbZero 5 (far_listMin refs rgbZero hfar)


/-- C10 (witness): the empty image has no quantized colors, so the
signature is five zeros and matching against an empty reference table falls
through. -/
theorem c10_color_signature_witness :
    (getColor []).length = 5 ∧
    getColor [] = List.replicate 5 rgbZero ∧
    matchUnit [] [] = ("empty.png", 2001) := by
  have h := c10_color_signature [] []
  exact ⟨h.1, (h.2 (by decide)).1, (h.2 (by decide)).2.mpr (by simp)⟩

theorem regInsert_keys (reg : List (String × ApiDeviceInfo)) (d : ApiDeviceInfo) (a : String) :
    a ∈ (regInsert reg d).map (fun kv => kv.1) ↔
      a ∈ reg.map (fun kv => kv.1) ∨ a = d.id := by
  unfold regInsert
  by_cases hany : reg.any (fun kv => kv.1 = d.id)
  · rw [if_pos hany]
    have hkeys : (reg.map (fun kv => if kv.1 = d.id then (d.id, d) else kv)).map
        (fun kv => kv.1) = reg.map (fun kv => kv.1) := by
      rw [List.map_map]
      apply List.map_congr_left
      intro kv _
      by_cases hk : kv.1 = d.id
      · simp [hk]
      · simp [hk]
    rw [hkeys]
    constructor
    · exact Or.inl
    · rintro (h | rfl)
      · exact h
      · obtain ⟨kv, hkv, he⟩ := List.any_eq_true.mp hany
        have he1 : kv.1 = d.id := by simpa using he
        exact List.mem_map.mpr ⟨kv, hkv, he1⟩
  · rw [if_neg hany]
    simp [List.mem_append]

theorem foldl_regInsert_keys (ds : List ApiDeviceInfo)
    (reg : List (String × ApiDeviceInfo)) (a : String) :
    a ∈ (ds.foldl regInsert reg).map (fun kv => kv.1) ↔
      a ∈ reg.map (fun kv => kv.1) ∨ a ∈ ds.map (fun d => d.id) := by
  induction ds generalizing reg with
  | nil => simp
  | cons d ds ih =>
    simp only [List.foldl_cons, List.map_cons, List.mem_cons]
    rw [ih, regInsert_keys]
    tauto

theorem refreshDevices_keys (reg : List (String × ApiDeviceInfo)) (lines : List String)
    (a : String) :
    a ∈ (refreshDevices reg lines).map (fun kv => kv.1) ↔
      a ∈ (lines.filterMap parseDeviceLine).map (fun d => d.id) := by
  unfold refreshDevices
  constructor
  · intro h
    obtain ⟨kv, hkv, rfl⟩ := List.mem_map.mp h
    have hf := List.mem_filter.mp hkv
    simpa using hf.2
  · intro h
    have hk : a ∈ ((lines.filterMap parseDeviceLine).foldl regInsert reg).map
        (fun kv => kv.1) := (foldl_regInsert_keys _ reg a).mpr (Or.inr h)
    obtain ⟨kv, hkv, rfl⟩ := List.mem_map.mp hk
    exact List.mem_map.mpr ⟨kv, List.mem_filter.mpr ⟨hkv, by simpa using h⟩, rfl⟩

theorem bScanUpdate_keys_sub (reg : List (String × BDevice)) (e : BDeviceInfo) (a : String)
    (h : a ∈ reg.map (fun kv => kv.1)) :
    a ∈ (bScanUpdate reg e).map (fun kv => kv.1) := by
  unfold bScanUpdate
  by_cases hany : reg.any (fun kv => kv.1 = e.deviceId)
  · rw [if_pos hany]
    have hkeys : (reg.map (fun kv => if kv.1 = e.deviceId then (kv.1, (⟨e, true⟩ : BDevice))
        else kv)).map (fun kv => kv.1) = reg.map (fun kv => kv.1) := by
      rw [List.map_map]
      apply List.map_congr_left
      intro kv _
      by_cases hk : kv.1 = e.deviceId
      · simp [hk]
      · simp [hk]
    rw [hkeys]
    exact h
  · rw [if_neg hany]
    simp only [List.map_append, List.mem_append]
    exact Or.inl h

theorem foldl_bScanUpdate_keys_sub (enum : List BDeviceInfo)
    (reg : List (String × BDevice)) (a : String) (h : a ∈ reg.map (fun kv => kv.1)) :
    a ∈ (enum.foldl bScanUpdate reg).map (fun kv => kv.1) := by
  induction enum generalizing reg with
  | nil => exact h
  | cons e es ih => exact ih _ (bScanUpdate_keys_sub reg e a h)

theorem scanDevices_keys_sub (reg : List (String × BDevice)) (enum : List BDeviceInfo)
    (a : String) (h : a ∈ reg.map (fun kv => kv.1)) :
    a ∈ (scanDevices reg enum).map (fun kv => kv.1) := by
  unfold scanDevices
  have h1 := foldl_bScanUpdate_keys_sub enum reg a h
  obtain ⟨kv, hkv, rfl⟩ := List.mem_map.mp h1
  refine List.mem_map.mpr ⟨_, List.mem_map.mpr ⟨kv, hkv, rfl⟩, ?_⟩
  split
  · rfl
  · rfl

theorem scanDevices_stale_marked (reg : List (String × BDevice)) (enum : List BDeviceInfo)
    (kv : String × BDevice) (hkv : kv ∈ scanDevices reg enum)
    (hst : kv.1 ∉ enum.map (fun e => e.deviceId)) :
    kv.2.info.status = BDeviceStatus.disconnected ∧ kv.2.info.isConnected = false ∧
      kv.2.hasAdb = false := by
  unfold scanDevices at hkv
  obtain ⟨kv', _, rfl⟩ := List.mem_map.mp hkv
  by_cases hc : (enum.map (fun e => e.deviceId)).contains kv'.1
  · rw [if_pos hc] at hst ⊢
    exact absurd (by simpa using hc) hst
  · rw [if_neg hc]
    exact ⟨rfl, rfl, rfl⟩



/-- C5 (amended): after a completed api refresh_devices scan the registry
keys are exactly the freshly enumerated device ids (stale keys are
deleted); after a completed backend scan_devices scan every old key is
still present, and every entry whose id was not enumerated is marked
disconnected with its adb handle cleared rather than removed. -/
theorem c5_registry_pruning (reg : List (String × ApiDeviceInfo)) (lines : List String)
    (breg : List (String × BDevice)) (enum : List BDeviceInfo) :
    (∀ a, a ∈ (refreshDevices reg lines).map (fun kv => kv.1) ↔
        a ∈ (lines.filterMap parseDeviceLine).map (fun d => d.id)) ∧
    (∀ a, a ∈ breg.map (fun kv => kv.1) →
        a ∈ (scanDevices breg enum).map (fun kv => kv.1)) ∧
    (∀ kv ∈ scanDevices breg enum, kv.1 ∉ enum.map (fun e => e.deviceId) →
        kv.2.info.status = BDeviceStatus.disconnected ∧ kv.2.info.isConnected = false ∧
        kv.2.hasAdb = false) :=
  ⟨refreshDevices_keys reg lines, scanDevices_keys_sub breg enum,
   scanDevices_stale_marked breg enum⟩

/-- C5 (witness): pruning and retention at concrete one-entry
registries. -/
theorem c5_registry_pruning_witness :
    "emulator-5554" ∈ (refreshDevices [] ["emulator-5554 device"]).map (fun kv => kv.1) ∧
    "d1" ∈ (scanDevices [("d1", ⟨⟨"d1", .connected, true⟩, true⟩)] []).map
      (fun kv => kv.1) ∧
    ((("d1", (⟨⟨"d1", .disconnected, false⟩, false⟩ : BDevice)) : String × BDevice).2.info.status
        = BDeviceStatus.disconnected ∧
      (("d1", (⟨⟨"d1", .disconnected, false⟩, false⟩ : BDevice)) :
        String × BDevice).2.info.isConnected = false ∧
      (("d1", (⟨⟨"d1", .disconnected, false⟩, false⟩ : BDevice)) :
        String × BDevice).2.hasAdb = false) := by
  have h := c5_registry_pruning [] ["emulator-5554 device"]
    [("d1", ⟨⟨"d1", .connected, true⟩, true⟩)] []
  exact ⟨(h.1 "emulator-5554").mpr (by decide), h.2.1 "d1" (by decide),
         h.2.2 ("d1", ⟨⟨"d1", .disconnected, false⟩, false⟩) (by decide) (by simp)⟩


end RushRoyale

